import Mathlib

/-!
Verification of the stdresult library.

This file gives a shallow embedding of the Result container and its
combinators from src/src/types.ts, the error classifier from
src/src/globals/utils.ts, and the fetch wrapper from
src/src/globals/fetch.ts, and proves the spec claims about them.

Side effects are modelled explicitly: callback invocations as lists of the
arguments the callback is invoked with (read off the same branches of the
source), thrown exceptions as the error side of `Except`, and a settled
promise of a value as the value it resolved with.
-/

namespace Stdresult

/-- The two-variant result container of src/src/types.ts: `Ok` is the
Success variant holding a value, `Err` the Failure variant holding an
error (constructors `Ok` and `Err`, types.ts lines 342-374). -/
inductive IResult (T E : Type) where
  | Ok : T → IResult T E
  | Err : E → IResult T E
deriving DecidableEq

/-- `isOk()`: the `Ok` constructor installs `isOk: () => true`, the `Err`
constructor installs `isOk: () => false`. -/
def IResult.isOk {T E : Type} : IResult T E → Bool
  | .Ok _ => true
  | .Err _ => false

/-- `isErr()`: the `Ok` constructor installs `isErr: () => false`, the
`Err` constructor installs `isErr: () => true`. -/
def IResult.isErr {T E : Type} : IResult T E → Bool
  | .Ok _ => false
  | .Err _ => true

/-- The `value` getter: defined only on the Success variant (types.ts
line 369-371); reading it on a Failure gives `undefined`, modelled as
`none`. -/
def IResult.value? {T E : Type} : IResult T E → Option T
  | .Ok v => some v
  | .Err _ => none

/-- The `error` getter: defined only on the Failure variant (types.ts
line 347-349); reading it on a Success gives `undefined`, modelled as
`none`. -/
def IResult.error? {T E : Type} : IResult T E → Option E
  | .Ok _ => none
  | .Err e => some e

/-- A thrown `TypeError` as raised by `unwrap`, `unwrapErr`, `expect` and
`expectErr`: `new TypeError(message)` with a `cause` property defined to
hold the original payload (types.ts lines 174-191 and 250-271). -/
structure ThrownTypeError (C : Type) where
  message : String
  cause : C
deriving DecidableEq

/-- `unwrap()` (types.ts lines 250-260): on Success return the value; on
Failure throw `new TypeError('Result is error')` with the error as its
`cause`. -/
def IResult.unwrap {T E : Type} : IResult T E → Except (ThrownTypeError E) T
  | .Ok v => .ok v
  | .Err e => .error ⟨"Result is error", e⟩

/-- `unwrapErr()` (types.ts lines 261-271): on Failure return the error;
on Success throw `new TypeError('Result is ok')` with the value as its
`cause`. -/
def IResult.unwrapErr {T E : Type} : IResult T E → Except (ThrownTypeError T) E
  | .Ok v => .error ⟨"Result is ok", v⟩
  | .Err e => .ok e

/-- `expect(msg)` (types.ts lines 174-182): like `unwrap` but the thrown
`TypeError` carries the caller-supplied message. -/
def IResult.expect {T E : Type} (msg : String) :
    IResult T E → Except (ThrownTypeError E) T
  | .Ok v => .ok v
  | .Err e => .error ⟨msg, e⟩

/-- `expectErr(msg)` (types.ts lines 183-191): like `unwrapErr` but the
thrown `TypeError` carries the caller-supplied message. -/
def IResult.expectErr {T E : Type} (msg : String) :
    IResult T E → Except (ThrownTypeError T) E
  | .Ok v => .error ⟨msg, v⟩
  | .Err e => .ok e

/-- True exactly when the call took the throwing (fatal) path. -/
def isFatal {C A : Type} : Except (ThrownTypeError C) A → Bool
  | .error _ => true
  | .ok _ => false

/-- `andThen(fn)` (types.ts lines 165-173): on Success return
`fn(value)`; on Failure rebuild `Err` with the same error without calling
`fn`. -/
def IResult.andThen {T E U : Type} (r : IResult T E) (fn : T → IResult U E) :
    IResult U E :=
  match r with
  | .Ok v => fn v
  | .Err e => .Err e

/-- The arguments `andThen` invokes its callback with, read off the same
branches: once with the value on Success, never on Failure. -/
def IResult.andThenInvocations {T E : Type} : IResult T E → List T
  | .Ok v => [v]
  | .Err _ => []

/-- `mapOk(fn)` (types.ts lines 215-221): on Success rewrap `fn(value)`;
on Failure rebuild `Err` with the same error without calling `fn`. -/
def IResult.mapOk {T E U : Type} (fn : T → U) : IResult T E → IResult U E
  | .Ok v => .Ok (fn v)
  | .Err e => .Err e

/-- The arguments `mapOk` invokes its callback with: once with the value
on Success, never on Failure. -/
def IResult.mapOkInvocations {T E : Type} : IResult T E → List T
  | .Ok v => [v]
  | .Err _ => []

/-- `mapErr(fn)` (types.ts lines 208-214): on Failure rewrap
`fn(error)`; on Success rebuild `Ok` with the same value. -/
def IResult.mapErr {T E F : Type} (fn : E → F) : IResult T E → IResult T F
  | .Ok v => .Ok v
  | .Err e => .Err (fn e)

/-- `inspectOk(fn)` (types.ts lines 192-199): on Success call
`fn(value)` and rebuild `Ok` with the same value; on Failure rebuild
`Err` with the same error. The callback returns void, so only the
returned result is modelled here; its invocations are recorded by
`inspectOkInvocations`. -/
def IResult.inspectOk {T E : Type} : IResult T E → IResult T E
  | .Ok v => .Ok v
  | .Err e => .Err e

/-- The arguments `inspectOk` invokes its callback with: once with the
value on Success, never on Failure. -/
def IResult.inspectOkInvocations {T E : Type} : IResult T E → List T
  | .Ok v => [v]
  | .Err _ => []

/-- `inspectErr(fn)` (types.ts lines 200-207): on Failure call
`fn(error)` and rebuild `Err` with the same error; on Success rebuild
`Ok` with the same value. -/
def IResult.inspectErr {T E : Type} : IResult T E → IResult T E
  | .Ok v => .Ok v
  | .Err e => .Err e

/-- The arguments `inspectErr` invokes its callback with: once with the
error on Failure, never on Success. -/
def IResult.inspectErrInvocations {T E : Type} : IResult T E → List E
  | .Ok _ => []
  | .Err e => [e]

/-- A one-shot future that has settled: `Promise.resolve(x)` produces
`resolved x`. The code paths modelled here never reject the promise a
`defer` builds, so the settled state is the resolved value. -/
inductive JSPromise (A : Type) where
  | resolved : A → JSPromise A
deriving DecidableEq

/-- The value a settled promise resolved with (what `await` yields). -/
def JSPromise.settle {A : Type} : JSPromise A → A
  | .resolved x => x

/-- `defer(r)` (types.ts lines 387-388): wraps the result in
`Promise.resolve(r)` and attaches the async combinator interface; the
underlying promise resolves with `r` itself. -/
def defer {T E : Type} (r : IResult T E) : JSPromise (IResult T E) :=
  .resolved r

/-- The runtime class of a JavaScript exception object, as tested by
`instanceof` in the classifier chain of src/src/globals/utils.ts. The
seven specific built-in kinds come first; `clsError` is a direct `Error`
instance and `clsCustomError` stands for any user-defined subclass of
`Error` that is none of the specific kinds. -/
inductive JSClass where
  | clsTypeError
  | clsSyntaxError
  | clsEvalError
  | clsRangeError
  | clsReferenceError
  | clsURIError
  | clsDOMException
  | clsError
  | clsCustomError
deriving DecidableEq

/-- An exception instance: its runtime class, its `name` property (for a
DOMException this is the error name such as "AbortError") and its
message. -/
structure JSException where
  cls : JSClass
  name : String
  message : String
deriving DecidableEq

/-- An arbitrary JavaScript value as it reaches a catch handler: a
number, a string, or an exception object. -/
inductive JSVal where
  | vNumber : Int → JSVal
  | vString : String → JSVal
  | vExn : JSException → JSVal
deriving DecidableEq

/-- `e instanceof C` for an exception object: true when the instance is
of class `C` itself, or when `C` is `Error`, since every class in
`JSClass` (the built-in error kinds, modern `DOMException`, and custom
error subclasses) inherits from `Error`. -/
def instanceOf (e : JSException) (c : JSClass) : Bool :=
  decide (e.cls = c) || decide (c = JSClass.clsError)

/-- `x instanceof C` for an arbitrary value: false on non-objects such as
numbers and strings. -/
def instanceOfV : JSVal → JSClass → Bool
  | .vExn e, c => instanceOf e c
  | _, _ => false

/-- The tagged record `{error, type}` the classifier returns
(src/src/globals/errors.ts): the original caught value and a string
tag. -/
structure Classified where
  error : JSVal
  type : String
deriving DecidableEq

/-- `errorHandlers.catch` (src/src/globals/utils.ts lines 4-42), the
classifier the spec calls `classify`: an if/else chain of `instanceof`
tests, the specific kinds first, `Error` second to last, and the
"unknown" tag as the fallback. -/
def classify (error : JSVal) : Classified :=
  if instanceOfV error .clsTypeError then ⟨error, "TypeError"⟩
  else if instanceOfV error .clsSyntaxError then ⟨error, "SyntaxError"⟩
  else if instanceOfV error .clsEvalError then ⟨error, "EvalError"⟩
  else if instanceOfV error .clsRangeError then ⟨error, "RangeError"⟩
  else if instanceOfV error .clsReferenceError then ⟨error, "ReferenceError"⟩
  else if instanceOfV error .clsURIError then ⟨error, "URIError"⟩
  else if instanceOfV error .clsDOMException then ⟨error, "DOMException"⟩
  else if instanceOfV error .clsError then ⟨error, "Error"⟩
  else ⟨error, "unknown"⟩

/-- `errorHandlers.unsafeCatch` (src/src/globals/utils.ts lines 49-58),
the entry point the spec calls `classifyOrRethrow`: classify, and when
the tag is "unknown" re-throw the record's `error` field (the original
value); otherwise return the classified record. -/
def classifyOrRethrow (error : JSVal) : Except JSVal Classified :=
  let nativeError := classify error
  if nativeError.type = "unknown" then .error nativeError.error
  else .ok nativeError

/-- An opaque `Response` object as resolved by `globalThis.fetch`. -/
structure Response where
  status : Nat
deriving DecidableEq

/-- How the underlying `globalThis.fetch(...)` promise settled: resolved
with a response, or rejected with some value. -/
inductive FetchOutcome where
  | resolves : Response → FetchOutcome
  | rejects : JSVal → FetchOutcome
deriving DecidableEq

/-- `fromPromise` (types.ts lines 403-408) applied to the settled fetch
promise: a resolution becomes `Ok(value)`, a rejection is caught into
`Err(error)`; the wrapping promise itself never rejects. -/
def fromPromiseSettled : FetchOutcome → IResult Response JSVal
  | .resolves r => .Ok r
  | .rejects v => .Err v

/-- The property access `x.ABORT_ERR`: `ABORT_ERR` is the Web IDL legacy
constant 20, present (inherited) on every `DOMException` instance
whatever its name; on any other value the property is `undefined`,
which is falsy, modelled as 0. -/
def abortErrProp : JSVal → Nat
  | .vExn e => if e.cls = .clsDOMException then 20 else 0
  | _ => 0

/-- The property access `x.NO_DATA_ALLOWED_ERR`: the Web IDL legacy
constant 6 on every `DOMException` instance; `undefined` (falsy,
modelled 0) elsewhere. -/
def noDataAllowedErrProp : JSVal → Nat
  | .vExn e => if e.cls = .clsDOMException then 6 else 0
  | _ => 0

/-- The second `mapErr` callback of the fetch wrapper
(src/src/globals/fetch.ts lines 18-33): when the tag is "DOMException"
narrow by truthiness of the instance's `ABORT_ERR` flag, then its
`NO_DATA_ALLOWED_ERR` flag, keeping the `error` field by spread; when
neither flag is truthy re-throw the exception (the "unreachable"
branch); any other tag passes through unchanged. -/
def fetchNarrow (err : Classified) : Except JSVal Classified :=
  if err.type = "DOMException" then
    if abortErrProp err.error ≠ 0 then .ok ⟨err.error, "AbortError"⟩
    else if noDataAllowedErrProp err.error ≠ 0 then .ok ⟨err.error, "NotAllowedError"⟩
    else .error err.error
  else .ok err

/-- `IAsyncResult.mapErr` with a callback that may throw (types.ts lines
315-317 chained through the promise): after the promise settles to a
result, a Success passes through, a Failure applies the callback; a
throw from the callback rejects the continuation promise. -/
def mapErrThrowing {T E F : Type} (fn : E → Except JSVal F) :
    IResult T E → Except JSVal (IResult T F)
  | .Ok v => .ok (.Ok v)
  | .Err e => (fn e).map .Err

/-- The fetch wrapper (src/src/globals/fetch.ts lines 13-33) as a
function of how the underlying fetch promise settled:
`fromPromise(globalThis.fetch(...))` then `.mapErr(unsafeCatch)` then
`.mapErr(narrowing)`; a throw in either callback rejects the final
promise (the error side of the outer `Except`). -/
def fetchModel (o : FetchOutcome) : Except JSVal (IResult Response Classified) :=
  (mapErrThrowing classifyOrRethrow (fromPromiseSettled o)).bind
    (mapErrThrowing fetchNarrow)

/-- True when a settled fetch produced a Failure whose tag is
"NotAllowedError". -/
def resultTagNotAllowed : Except JSVal (IResult Response Classified) → Bool
  | .ok (.Err c) => c.type == "NotAllowedError"
  | _ => false

/-- The classifier always returns the caught value itself in the `error`
field of the record. Shared helper. -/
theorem classify_error_eq (x : JSVal) : (classify x).error = x := by
  unfold classify
  repeat' split
  all_goals rfl

/-- Claim C1: `Ok(v).unwrap()` returns `v` and `Err(e).unwrapErr()`
returns `e`; `Err(e).unwrap()` and `Ok(v).unwrapErr()` throw an
immediate `TypeError` whose `cause` holds the original payload;
`expect(msg)` and `expectErr(msg)` behave the same except the thrown
exception carries the caller-supplied message; the fatal path of
`unwrap` fires exactly on a Failure and the fatal path of `unwrapErr`
exactly on a Success, so on no single result do both fire. -/
theorem unwrap_expect_spec {T E : Type} :
    (∀ (v : T), (IResult.Ok v : IResult T E).unwrap = .ok v)
  ∧ (∀ (e : E), (IResult.Err e : IResult T E).unwrapErr = .ok e)
  ∧ (∀ (e : E), (IResult.Err e : IResult T E).unwrap = .error ⟨"Result is error", e⟩)
  ∧ (∀ (v : T), (IResult.Ok v : IResult T E).unwrapErr = .error ⟨"Result is ok", v⟩)
  ∧ (∀ (msg : String) (v : T), (IResult.Ok v : IResult T E).expect msg = .ok v)
  ∧ (∀ (msg : String) (e : E),
      (IResult.Err e : IResult T E).expect msg = .error ⟨msg, e⟩)
  ∧ (∀ (msg : String) (e : E), (IResult.Err e : IResult T E).expectErr msg = .ok e)
  ∧ (∀ (msg : String) (v : T),
      (IResult.Ok v : IResult T E).expectErr msg = .error ⟨msg, v⟩)
  ∧ (∀ (r : IResult T E),
      isFatal r.unwrap = r.isErr ∧ isFatal r.unwrapErr = r.isOk) := by
  refine ⟨fun v => rfl, fun e => rfl, fun e => rfl, fun v => rfl,
    fun msg v => rfl, fun msg e => rfl, fun msg e => rfl, fun msg v => rfl,
    fun r => ?_⟩
  cases r <;> exact ⟨rfl, rfl⟩

/-- Claim C2: `Ok(v).isOk()` is true and `Ok(v).isErr()` is false,
symmetrically for `Err(e)`, and on every result `isOk()` and `isErr()`
disagree: `isOk` is the boolean negation of `isErr`. -/
theorem isOk_isErr_exclusive {T E : Type} :
    (∀ (v : T), (IResult.Ok v : IResult T E).isOk = true
      ∧ (IResult.Ok v : IResult T E).isErr = false)
  ∧ (∀ (e : E), (IResult.Err e : IResult T E).isErr = true
      ∧ (IResult.Err e : IResult T E).isOk = false)
  ∧ (∀ (r : IResult T E), r.isOk = !r.isErr) := by
  refine ⟨fun v => ⟨rfl, rfl⟩, fun e => ⟨rfl, rfl⟩, fun r => ?_⟩
  cases r <;> rfl

/-- Claim C3: `Err(e).andThen(f)` yields a Failure holding the same
error `e` and never invokes `f` (its invocation trace is empty);
`Ok(v).andThen(f)` returns exactly the result `f(v)`. -/
theorem andThen_spec {T E U : Type} :
    (∀ (e : E) (fn : T → IResult U E),
        (IResult.Err e : IResult T E).andThen fn = .Err e)
  ∧ (∀ (e : E), (IResult.Err e : IResult T E).andThenInvocations = [])
  ∧ (∀ (v : T) (fn : T → IResult U E),
        (IResult.Ok v : IResult T E).andThen fn = fn v)
  ∧ (∀ (v : T), (IResult.Ok v : IResult T E).andThenInvocations = [v]) :=
  ⟨fun _ _ => rfl, fun _ => rfl, fun _ _ => rfl, fun _ => rfl⟩

/-- Claim C4: `Ok(v).mapOk(f)` is a Success whose `unwrap()` returns
`f(v)`; `Err(e).mapOk(f)` remains a Failure holding the same error `e`,
with `f` never invoked (empty invocation trace). -/
theorem mapOk_spec {T E U : Type} :
    (∀ (v : T) (f : T → U),
        ((IResult.Ok v : IResult T E).mapOk f).isOk = true
      ∧ ((IResult.Ok v : IResult T E).mapOk f).unwrap = .ok (f v))
  ∧ (∀ (e : E) (f : T → U),
        (IResult.Err e : IResult T E).mapOk f = .Err e)
  ∧ (∀ (e : E), (IResult.Err e : IResult T E).mapOkInvocations = []) :=
  ⟨fun _ _ => ⟨rfl, rfl⟩, fun _ _ => rfl, fun _ => rfl⟩

/-- Claim C5: `inspectOk` and `inspectErr` are pure taps: each returns a
result equivalent to the receiver (same variant, identical payload), and
each invokes its callback exactly once with the held payload on the
matching variant and never on the other (the invocation trace is the
payload of the matching variant, read through the corresponding
getter). -/
theorem inspect_taps_spec {T E : Type} :
    ∀ (r : IResult T E),
      r.inspectOk = r
      ∧ r.inspectErr = r
      ∧ r.inspectOkInvocations = r.value?.toList
      ∧ r.inspectErrInvocations = r.error?.toList := by
  intro r
  cases r <;> exact ⟨rfl, rfl, rfl, rfl⟩

/-- Claim C6: `defer(Ok(v))` settles to a result whose `isOk()` is true
and whose `value` field is exactly `v`; symmetrically `defer(Err(e))`
settles to a Failure holding `e`. -/
theorem defer_roundtrip {T E : Type} :
    (∀ (v : T), ((defer (IResult.Ok v : IResult T E)).settle.isOk = true)
      ∧ ((defer (IResult.Ok v : IResult T E)).settle.value? = some v))
  ∧ (∀ (e : E), ((defer (IResult.Err e : IResult T E)).settle.isErr = true)
      ∧ ((defer (IResult.Err e : IResult T E)).settle.error? = some e)) :=
  ⟨fun _ => ⟨rfl, rfl⟩, fun _ => ⟨rfl, rfl⟩⟩

/-- Claim C7: the classifier is total and the rethrowing entry point
raises exactly on the unknown tag: `classify` always returns a tagged
record holding the original value; `classify(42)` yields the "unknown"
tag; `classify(new TypeError(m))` yields the tag "TypeError" with the
same instance; `classifyOrRethrow` returns the classified record when
the tag is known and re-raises the original value unchanged when the
tag is "unknown", so in particular `classifyOrRethrow(42)` raises
`42`. -/
theorem classify_total_rethrow_spec :
    (∀ (x : JSVal), (classify x).error = x)
  ∧ ((classify (.vNumber 42)).type = "unknown")
  ∧ (∀ (nm ms : String),
      classify (.vExn ⟨.clsTypeError, nm, ms⟩)
        = ⟨.vExn ⟨.clsTypeError, nm, ms⟩, "TypeError"⟩)
  ∧ (∀ (x : JSVal), classifyOrRethrow x =
      if (classify x).type = "unknown" then .error x else .ok (classify x))
  ∧ (classifyOrRethrow (.vNumber 42) = .error (.vNumber 42)) := by
  refine ⟨classify_error_eq, rfl, fun nm ms => rfl, fun x => ?_, rfl⟩
  show (if (classify x).type = "unknown"
      then Except.error (classify x).error else Except.ok (classify x)) = _
  rw [classify_error_eq]

/-- Claim C8: every exception object is an instance of `Error` (so the
catch-all check would match it), yet `classify` tags an instance of a
specific kind with that specific kind, never with the generic "Error"
tag; the generic tag is produced exactly for instances of `Error` that
are of none of the specific kinds (direct `Error` instances and custom
`Error` subclasses). -/
theorem classify_most_specific_first :
    ∀ (e : JSException),
      instanceOf e .clsError = true
      ∧ (classify (.vExn e)).type =
          (match e.cls with
            | .clsTypeError => "TypeError"
            | .clsSyntaxError => "SyntaxError"
            | .clsEvalError => "EvalError"
            | .clsRangeError => "RangeError"
            | .clsReferenceError => "ReferenceError"
            | .clsURIError => "URIError"
            | .clsDOMException => "DOMException"
            | .clsError => "Error"
            | .clsCustomError => "Error") := by
  intro e
  obtain ⟨cls, nm, ms⟩ := e
  cases cls <;> exact ⟨rfl, rfl⟩

/-- Claim C9: when the underlying fetch promise rejects with an abort (a
`DOMException` named "AbortError"), the wrapped fetch settles to a
Failure tagged "AbortError" holding the same exception; the narrowing
reached that tag by inspecting the instance's `ABORT_ERR` flag. -/
theorem fetch_abort_spec :
    ∀ (d : JSException), d.cls = .clsDOMException → d.name = "AbortError" →
      fetchModel (.rejects (.vExn d)) = .ok (.Err ⟨.vExn d, "AbortError"⟩) := by
  intro d h1 _
  obtain ⟨cls, nm, ms⟩ := d
  cases cls <;> first | rfl | exact nomatch h1

/-- Witness for claim C9 at a concrete aborted fetch. -/
theorem fetch_abort_spec_witness :
    fetchModel (.rejects (.vExn ⟨.clsDOMException, "AbortError", "aborted"⟩))
      = .ok (.Err ⟨.vExn ⟨.clsDOMException, "AbortError", "aborted"⟩, "AbortError"⟩) :=
  fetch_abort_spec ⟨.clsDOMException, "AbortError", "aborted"⟩ rfl rfl

/-- Claim C10: because `ABORT_ERR` is the fixed nonzero constant 20 on
every `DOMException` instance, the narrowing's first branch always
fires: every classified `DOMException`, whatever its name, is retagged
"AbortError"; consequently no settled fetch ever produces a Failure
tagged "NotAllowedError" (and the re-throw branch never runs, since a
rejected final promise can only come from the "unknown" tag, which is
not a `DOMException`). -/
theorem fetch_domexception_always_abort :
    (∀ (d : JSException), d.cls = .clsDOMException →
        fetchNarrow ⟨.vExn d, "DOMException"⟩ = .ok ⟨.vExn d, "AbortError"⟩)
  ∧ (∀ (o : FetchOutcome), resultTagNotAllowed (fetchModel o) = false) := by
  constructor
  · intro d h1
    obtain ⟨cls, nm, ms⟩ := d
    cases cls <;> first | rfl | exact nomatch h1
  · intro o
    cases o with
    | resolves r => rfl
    | rejects v =>
      cases v with
      | vNumber n => rfl
      | vString s => rfl
      | vExn e =>
        obtain ⟨cls, nm, ms⟩ := e
        cases cls <;> rfl

/-- Witness for claim C10 at a concrete `DOMException` whose name is
"NotAllowedError": it is still tagged "AbortError". -/
theorem fetch_domexception_always_abort_witness :
    fetchNarrow ⟨.vExn ⟨.clsDOMException, "NotAllowedError", "denied"⟩, "DOMException"⟩
      = .ok ⟨.vExn ⟨.clsDOMException, "NotAllowedError", "denied"⟩, "AbortError"⟩
    ∧ resultTagNotAllowed
        (fetchModel (.rejects (.vExn ⟨.clsDOMException, "NotAllowedError", "denied"⟩)))
        = false :=
  ⟨fetch_domexception_always_abort.1 ⟨.clsDOMException, "NotAllowedError", "denied"⟩ rfl,
   fetch_domexception_always_abort.2
     (.rejects (.vExn ⟨.clsDOMException, "NotAllowedError", "denied"⟩))⟩

end Stdresult
